import Mathlib

/-!
# Verification of `main.py` (nano-banana-basic-python)

A shallow embedding of the single-file image-generation CLI script.
The script: validates environment configuration and the prompt argument,
creates a timestamped session directory, writes a `prompt.txt` metadata
file, then sequentially issues one remote image-generation request per
configured index, decoding each returned payload (raw bytes or base64
text) and writing it to `image-NN.png`.

Modelling conventions:
* Machine strings are Lean `String`, bytes are `List Nat` with each
  entry `< 256`.
* The filesystem is represented by the list of (filename, content)
  pairs written into the session directory, plus an ordered event
  trace (`Event`) recording file writes, network requests and sleeps.
* The remote API is an oracle `Nat → Except String Response`: for each
  1-based index it either raises an exception (`.error msg`, standing
  for any `Exception` thrown by the network layer) or returns a
  response object.
* Python floats (`TEMPERATURE`, `TOP_P`) are never computed with —
  they are only passed through and formatted — so the configuration
  stores their printed form as strings.
* `sys.exit(1)` raises `SystemExit`; the model of `main` returns
  `Except PyErr Unit` where `PyErr.systemExit` is a `SystemExit` and
  `PyErr.exception` any other `Exception`.
-/

namespace NanoBanana

/-- Python `str.zfill(width)` for a non-negative decimal string (the
script only ever applies it to `str(index)` with `index ≥ 1`, so the
sign-prefix handling of `zfill` is never exercised): left-pad with
`'0'` up to `width`. From `main.py` line 126. -/
def zfill (width : Nat) (s : String) : String :=
  if width ≤ s.length then s
  else String.mk (List.replicate (width - s.length) '0') ++ s

/-- `f"image-{str(index).zfill(2)}.png"` — the image filename for a
1-based index (`main.py` line 126). -/
def imageFilename (index : Nat) : String :=
  "image-" ++ zfill 2 (Nat.repr index) ++ ".png"

/-! ## Base64 (model of `base64.b64encode` / `base64.b64decode`)

Standard RFC 4648 base64 over byte lists.  `b64decodeChars` models
CPython's default (non-strict) `b64decode`: characters outside the
alphabet and `'='` are discarded first, then the remaining characters
are consumed in groups of four with `'='` padding allowed only in a
final group; any other shape raises `binascii.Error`, modelled by
`none`. -/

/-- The standard base64 alphabet, index `n` holds the character for
sextet `n`. -/
def b64Alphabet : List Char :=
  ['A','B','C','D','E','F','G','H','I','J','K','L','M','N','O','P',
   'Q','R','S','T','U','V','W','X','Y','Z',
   'a','b','c','d','e','f','g','h','i','j','k','l','m','n','o','p',
   'q','r','s','t','u','v','w','x','y','z',
   '0','1','2','3','4','5','6','7','8','9','+','/']

/-- Character for a sextet value (`< 64`). -/
def sextetChar (n : Nat) : Char := b64Alphabet.getD n 'A'

/-- Sextet value of an alphabet character. -/
def charSextet (c : Char) : Nat := b64Alphabet.indexOf c

/-- Whether a character survives CPython's pre-filtering in
non-strict `b64decode` (alphabet characters and padding). -/
def b64Keep (c : Char) : Bool := b64Alphabet.contains c || c == '='

/-- base64-encode a byte list to a character list. -/
def b64encodeChars : List Nat → List Char
  | a :: b :: c :: rest =>
      sextetChar (a / 4) :: sextetChar ((a % 4) * 16 + b / 16) ::
      sextetChar ((b % 16) * 4 + c / 64) :: sextetChar (c % 64) ::
      b64encodeChars rest
  | [a, b] =>
      [sextetChar (a / 4), sextetChar ((a % 4) * 16 + b / 16),
       sextetChar ((b % 16) * 4), '=']
  | [a] =>
      [sextetChar (a / 4), sextetChar ((a % 4) * 16), '=', '=']
  | [] => []

/-- `base64.b64encode` on a byte list, as a string. -/
def b64encode (bs : List Nat) : String := String.mk (b64encodeChars bs)

/-- Decode a pre-filtered character list in groups of four. -/
def b64decodeQuads : List Char → Option (List Nat)
  | [] => some []
  | w :: x :: y :: z :: rest =>
      if y = '=' ∧ z = '=' ∧ rest = [] then
        some [charSextet w * 4 + charSextet x / 16]
      else if z = '=' ∧ rest = [] ∧ y ≠ '=' then
        some [charSextet w * 4 + charSextet x / 16,
              (charSextet x % 16) * 16 + charSextet y / 4]
      else if w ≠ '=' ∧ x ≠ '=' ∧ y ≠ '=' ∧ z ≠ '=' then
        match b64decodeQuads rest with
        | some bs =>
            some ((charSextet w * 4 + charSextet x / 16) ::
                  ((charSextet x % 16) * 16 + charSextet y / 4) ::
                  ((charSextet y % 4) * 64 + charSextet z) :: bs)
        | none => none
      else none
  | _ => none

/-- `base64.b64decode` (non-strict): discard foreign characters, then
decode quads; `none` models a raised `binascii.Error`. -/
def b64decode (s : String) : Option (List Nat) :=
  b64decodeQuads (s.toList.filter b64Keep)

/-! ## API response model and `generate_image` (`main.py` lines 93–136) -/

/-- A Python value reachable at `part.inline_data.data`: either raw
`bytes` or a `str` (any other value would fail `isinstance(_, bytes)`
and then raise in `b64decode`; the script never receives one in the
modelled API, so the two constructors cover `data` when present). -/
inductive PyData where
  | bytes (b : List Nat)
  | str (s : String)
deriving DecidableEq, Repr

/-- The `inline_data` object (`genai.types.Blob`): its `data` field
may itself be `None`. -/
structure Blob where
  data : Option PyData
deriving DecidableEq, Repr

/-- One content part.  `inline_data` is `None` for non-image parts;
a pydantic `Blob` instance is always truthy, so the guard
`hasattr(part, "inline_data") and part.inline_data` on line 117 is
exactly `isSome`. -/
structure Part where
  inline_data : Option Blob
deriving DecidableEq, Repr

/-- One response candidate; the script reads
`candidates[0].content.parts`. -/
structure Candidate where
  parts : List Part
deriving DecidableEq, Repr

/-- The API response. -/
structure Response where
  candidates : List Candidate
deriving DecidableEq, Repr

/-- Outcome of one `generate_image` call: the returned value
(`str(filepath)` on success, `None` i.e. `none` on failure), the
files it wrote into the session directory, and the lines it printed
to `stderr`. -/
structure GenOut where
  result : Option String
  written : List (String × List Nat)
  errLog : List String
deriving DecidableEq, Repr

/-- `f"   ❌ Failed to generate image {index}: {error}"`
(`main.py` line 135). -/
def failMsg (index : Nat) (error : String) : String :=
  "   ❌ Failed to generate image " ++ Nat.repr index ++ ": " ++ error

/-- The first part whose `inline_data` is truthy — the `for` loop on
line 116 returns from its first hit. -/
def firstInline (ps : List Part) : Option Blob :=
  ps.findSome? (·.inline_data)

/-- Lines 120–124: `bytes` data is used directly, `str` data is
base64-decoded (`none` = the decode raised), absent data raises a
`TypeError` inside `b64decode(None)`. -/
def decodePayload : Option PyData → Option (List Nat)
  | some (.bytes b) => some b
  | some (.str s) => b64decode s
  | none => none

/-- `generate_image(prompt, index, output_path)` (`main.py` lines
93–136), with the awaited network call abstracted as `apiResult`
(`.error msg` = the call raised an `Exception` with message `msg`).
The whole body sits in a `try` whose `except Exception` logs the
error with the image index and returns `None`; the function is total
and never propagates an exception. -/
def generate_image (prompt : String) (index : Nat) (output_path : String)
    (apiResult : Except String Response) : GenOut :=
  let _ := prompt
  match apiResult with
  | .error e => ⟨none, [], [failMsg index e]⟩
  | .ok resp =>
    match resp.candidates with
    | [] =>
        -- `response.candidates[0]` raises an `IndexError`, caught below.
        ⟨none, [], [failMsg index "list index out of range"]⟩
    | cand :: _ =>
      match firstInline cand.parts with
      | none =>
          -- line 133: `raise Exception("No image data in response")`
          ⟨none, [], [failMsg index "No image data in response"]⟩
      | some blob =>
        match decodePayload blob.data with
        | none =>
            -- the decode raised (`binascii.Error` / `TypeError`), caught.
            ⟨none, [], [failMsg index "decoding error"]⟩
        | some buffer =>
          let filename := imageFilename index
          ⟨some (output_path ++ "/" ++ filename), [(filename, buffer)], []⟩

/-! ## Timestamps and directories (`main.py` lines 77–90) -/

/-- A `datetime.datetime` value (local wall-clock reading of
`datetime.now()`). -/
structure PyDateTime where
  year : Nat
  month : Nat
  day : Nat
  hour : Nat
  minute : Nat
  second : Nat
  microsecond : Nat
deriving DecidableEq, Repr

/-- The ranges `datetime` guarantees for its fields. -/
def PyDateTime.Valid (t : PyDateTime) : Prop :=
  1 ≤ t.year ∧ t.year ≤ 9999 ∧ 1 ≤ t.month ∧ t.month ≤ 12 ∧
  1 ≤ t.day ∧ t.day ≤ 31 ∧ t.hour < 24 ∧ t.minute < 60 ∧
  t.second < 60 ∧ t.microsecond < 1000000

instance (t : PyDateTime) : Decidable t.Valid := by
  unfold PyDateTime.Valid; infer_instance

/-- Fixed-width zero-padded decimal digits (low-order `w` digits of
`n`; all uses have `n < 10 ^ w`). -/
def padDigits (w n : Nat) : List Char :=
  (List.range w).reverse.map (fun i => Nat.digitChar (n / 10 ^ i % 10))

/-- Days since 1970-01-01 of a civil date, the standard
days-from-civil calendar algorithm (used only to give "instants more
than one second apart" its real-time meaning). -/
def daysFromCivil (y m d : Int) : Int :=
  let y' := if m ≤ 2 then y - 1 else y
  let era := (if 0 ≤ y' then y' else y' - 399) / 400
  let yoe := y' - era * 400
  let mp := if 2 < m then m - 3 else m + 9
  let doy := (153 * mp + 2) / 5 + d - 1
  let doe := yoe * 365 + yoe / 4 - yoe / 100 + doy
  era * 146097 + doe - 719468

/-- Microseconds since the epoch of a wall-clock reading. -/
def PyDateTime.toMicros (t : PyDateTime) : Int :=
  (((daysFromCivil t.year t.month t.day * 24 + t.hour) * 60
      + t.minute) * 60 + t.second) * 1000000 + t.microsecond

/-- `datetime.isoformat()` as a character list:
`YYYY-MM-DDTHH:MM:SS[.ffffff]`, the microsecond part omitted when it
is zero. -/
def isoformatChars (t : PyDateTime) : List Char :=
  padDigits 4 t.year ++ ['-'] ++ padDigits 2 t.month ++ ['-'] ++
  padDigits 2 t.day ++ ['T'] ++ padDigits 2 t.hour ++ [':'] ++
  padDigits 2 t.minute ++ [':'] ++ padDigits 2 t.second ++
  (if t.microsecond = 0 then [] else ['.'] ++ padDigits 6 t.microsecond)

/-- The two 1-character `str.replace` calls of line 87. -/
def replaceColonDot (c : Char) : Char :=
  if c = ':' then '-' else if c = '.' then '-' else c

/-- Line 87:
`datetime.now().isoformat().replace(":", "-").replace(".", "-")[:19]`. -/
def timestampName (t : PyDateTime) : String :=
  String.mk (((isoformatChars t).map replaceColonDot).take 19)

/-- `create_timestamped_directory()` (`main.py` lines 85–90): the
session directory path `Path(OUTPUT_DIR) / timestamp`, created with
`parents=True, exist_ok=True`. -/
def create_timestamped_directory (outputDir : String) (t : PyDateTime) :
    String :=
  outputDir ++ "/" ++ timestampName t

/-- `ensure_output_directory()` (`main.py` lines 77–82) acting on the
set of existing directories, returned with the message it prints
(`none` when it prints nothing).  `mkdir(parents=True, exist_ok=True)`
never raises on an existing path. -/
def ensure_output_directory (outputDir : String) (fs : List String) :
    List String × Option String :=
  if outputDir ∈ fs then (fs, none)
  else (outputDir :: fs,
        some ("📁 Created output directory: " ++ outputDir))

/-! ## Configuration and `save_prompt_file` (`main.py` lines 13–33,
139–155) -/

/-- The configuration block at the top of `main.py`.  `OUTPUT_DIR`
and `API_KEY` come from `os.getenv` (`none` = variable unset);
`TEMPERATURE` and `TOP_P` are floats that are only ever formatted, so
they are stored as their printed form. -/
structure Config where
  OUTPUT_DIR : Option String
  IMAGE_COUNT : Nat
  IMAGE_ASPECT_RATIO : String
  IMAGE_SIZE : String
  TEMPERATURE : String
  TOP_P : String
  API_KEY : Option String
deriving DecidableEq, Repr

/-- The literal configuration values committed in the source. -/
def defaultConfig (outDir apiKey : Option String) : Config :=
  { OUTPUT_DIR := outDir
    IMAGE_COUNT := 1
    IMAGE_ASPECT_RATIO := "3:2"
    IMAGE_SIZE := "1K"
    TEMPERATURE := "0.2"
    TOP_P := "0.95"
    API_KEY := apiKey }

/-- `save_prompt_file(session_dir, prompt)` (`main.py` lines
139–155): the exact text written to `prompt.txt`, with `tMeta` the
`datetime.now()` read on line 144. -/
def save_prompt_file (cfg : Config) (session_dir prompt : String)
    (tMeta : PyDateTime) : String :=
  String.intercalate "\n"
    [ "Prompt: " ++ prompt,
      "Generated: " ++ String.mk (isoformatChars tMeta),
      "Model: gemini-2.5-flash-image",
      "Count: " ++ Nat.repr cfg.IMAGE_COUNT,
      "Aspect Ratio: " ++ cfg.IMAGE_ASPECT_RATIO,
      "Image Size: " ++ cfg.IMAGE_SIZE,
      "Temperature: " ++ cfg.TEMPERATURE,
      "Top P: " ++ cfg.TOP_P,
      "Output Directory: " ++ session_dir ]

/-! ## `validate_args` (`main.py` lines 41–74) -/

/-- Python truthiness of an optional string: `not s` is true when the
variable is unset (`None`) or set to the empty string. -/
def strFalsy : Option String → Bool
  | none => true
  | some s => s.isEmpty

/-- stderr lines of the missing-API-key branch (lines 44–50). -/
def apiKeyErrLines : List String :=
  [ "❌ Error: GEMINI_API_KEY environment variable is not set.", "",
    "Usage:", "  Set GEMINI_API_KEY in .env file",
    "  uv run main.py \"your prompt here\"" ]

/-- stderr lines of the missing-output-directory branch (lines
54–60). -/
def outDirErrLines : List String :=
  [ "❌ Error: IMAGE_OUTPUT_DIR environment variable is not set.", "",
    "Usage:", "  Set IMAGE_OUTPUT_DIR in .env file" ]

/-- stderr lines of the missing-prompt branch (lines 64–73). -/
def promptErrLines : List String :=
  [ "❌ Error: Image prompt is required.", "",
    "Usage:", "  uv run main.py \"your prompt here\"", "",
    "Example:",
    "  uv run main.py \"futuristic city at sunset with neon lights\"" ]

/-- `validate_args()` (`main.py` lines 41–74): the three checks in
order — API key, output directory, prompt argument.  Returns the
stderr lines of the first failing check (each branch ends in
`sys.exit(1)`), or `none` when all checks pass. -/
def validate_args (cfg : Config) (argv : List String) :
    Option (List String) :=
  if strFalsy cfg.API_KEY then some apiKeyErrLines
  else if strFalsy cfg.OUTPUT_DIR then some outDirErrLines
  else if argv.length < 2 then some promptErrLines
  else none

/-! ## The run controller `main` (`main.py` lines 158–206) and the
top-level driver (lines 209–214) -/

/-- Observable events of a run, in order: a file write into the
session directory, an awaited network request for a 1-based image
index, or an `asyncio.sleep` of the given number of seconds.  The
embedding is sequential exactly as the source is: `main` awaits each
request to completion before anything else happens. -/
inductive Event where
  | writeFile (name : String)
  | request (index : Nat)
  | sleep (seconds : Nat)
deriving DecidableEq, Repr

/-- State accumulated by the generation `for` loop (lines 185–194). -/
structure LoopOut where
  files : List (String × List Nat)
  errLog : List String
  successful_images : List String
  events : List Event
deriving DecidableEq, Repr

/-- The loop `for i in range(1, IMAGE_COUNT + 1)` over its remaining
indices: each step awaits `generate_image`, appends a successful
result to `successful_images`, and sleeps one second unless `i` is
the last index (`i < IMAGE_COUNT`). -/
def genLoop (prompt session_dir : String)
    (oracle : Nat → Except String Response) (count : Nat) :
    List Nat → LoopOut
  | [] => ⟨[], [], [], []⟩
  | i :: rest =>
      let g := generate_image prompt i session_dir (oracle i)
      let tail := genLoop prompt session_dir oracle count rest
      { files := g.written ++ tail.files
        errLog := g.errLog ++ tail.errLog
        successful_images :=
          (match g.result with | some p => [p] | none => []) ++
            tail.successful_images
        events :=
          (Event.request i ::
            g.written.map (fun f => Event.writeFile f.1) ++
            (if i < count then [Event.sleep 1] else [])) ++ tail.events }

/-- A Python exception escaping `main`: `sys.exit(code)` raises
`SystemExit(code)`, anything else is an `Exception`. -/
inductive PyErr where
  | systemExit (code : Nat)
  | exception (msg : String)
deriving DecidableEq, Repr

/-- Content of a file in the session directory. -/
inductive FileData where
  | text (s : String)
  | binary (b : List Nat)
deriving DecidableEq, Repr

/-- Observable state of one invocation of `main`. -/
structure MainState where
  stderr : List String
  files : List (String × FileData)
  events : List Event
  successCount : Nat
  session_dir : String
deriving DecidableEq, Repr

/-- `main()` (`main.py` lines 158–206).  `tDir` and `tMeta` are the
two `datetime.now()` readings (line 87 and line 144), `oracle` the
network.  Returns the observable state together with how the
coroutine finished: `.ok ()` = fell off the end (process exit 0),
`.error (.systemExit 1)` = one of the `sys.exit(1)` calls (first
failing validation check, or a generation shortfall on line 206). -/
def mainExec (cfg : Config) (argv : List String)
    (oracle : Nat → Except String Response) (tDir tMeta : PyDateTime) :
    MainState × Except PyErr Unit :=
  match validate_args cfg argv with
  | some errLines =>
      (⟨errLines, [], [], 0, ""⟩, .error (.systemExit 1))
  | none =>
    let prompt := argv.getD 1 ""
    let outDir := cfg.OUTPUT_DIR.getD ""
    let session_dir := create_timestamped_directory outDir tDir
    let promptText := save_prompt_file cfg session_dir prompt tMeta
    let loop := genLoop prompt session_dir oracle cfg.IMAGE_COUNT
      (List.range' 1 cfg.IMAGE_COUNT)
    let success_count := loop.successful_images.length
    ({ stderr := loop.errLog
       files := ("prompt.txt", .text promptText) ::
         loop.files.map (fun f => (f.1, FileData.binary f.2))
       events := Event.writeFile "prompt.txt" :: loop.events
       successCount := success_count
       session_dir := session_dir },
     if success_count < cfg.IMAGE_COUNT then .error (.systemExit 1)
     else .ok ())

/-- Final process exit code and stderr. -/
structure ProgResult where
  exitCode : Nat
  stderr : List String
  state : MainState
deriving DecidableEq, Repr

/-- The `if __name__ == "__main__"` driver (`main.py` lines 209–214):
`except Exception` catches only `Exception`, so a `SystemExit` from
`sys.exit` inside `main` propagates unchanged and sets the process
exit status to its code with no extra output, while any other
exception prints a `Fatal Error` line and exits 1.  Normal completion
exits 0. -/
def pythonDriver (run : MainState × Except PyErr Unit) : ProgResult :=
  match run.2 with
  | .ok _ => ⟨0, run.1.stderr, run.1⟩
  | .error (.systemExit c) => ⟨c, run.1.stderr, run.1⟩
  | .error (.exception m) =>
      ⟨1, run.1.stderr ++ ["\n❌ Fatal Error: " ++ m], run.1⟩

/-- The whole process: `asyncio.run(main())` under the driver. -/
def runProgram (cfg : Config) (argv : List String)
    (oracle : Nat → Except String Response) (tDir tMeta : PyDateTime) :
    ProgResult :=
  pythonDriver (mainExec cfg argv oracle tDir tMeta)

/-- Whether an event is a network request. -/
def isRequestEv : Event → Bool
  | .request _ => true
  | _ => false

/-- Whether an event is a sleep pause. -/
def isSleepEv : Event → Bool
  | .sleep _ => true
  | _ => false

/-- Number of network requests in an event trace. -/
def requestCount (es : List Event) : Nat :=
  (es.filter isRequestEv).length

/-- Number of sleep pauses in an event trace. -/
def sleepCount (es : List Event) : Nat :=
  (es.filter isSleepEv).length

/-! ## Base64 round-trip lemmas -/

theorem charSextet_sextetChar : ∀ n, n < 64 → charSextet (sextetChar n) = n := by decide

theorem sextetChar_ne_pad : ∀ n, n < 64 → sextetChar n ≠ '=' := by decide

theorem b64Keep_sextetChar : ∀ n, n < 64 → b64Keep (sextetChar n) = true := by decide

theorem filter_b64encodeChars : ∀ l : List Nat, (∀ b ∈ l, b < 256) →
    (b64encodeChars l).filter b64Keep = b64encodeChars l
  | a :: b :: c :: rest, h => by
      have ha : a < 256 := h a (by simp)
      have hb : b < 256 := h b (by simp)
      have hc : c < 256 := h c (by simp)
      have ih := filter_b64encodeChars rest (fun x hx => h x (by simp [hx]))
      simp only [b64encodeChars, List.filter_cons]
      rw [b64Keep_sextetChar _ (by omega), b64Keep_sextetChar _ (by omega),
        b64Keep_sextetChar _ (by omega), b64Keep_sextetChar _ (by omega), ih]
      simp
  | [a, b], h => by
      have ha : a < 256 := h a (by simp)
      have hb : b < 256 := h b (by simp)
      simp only [b64encodeChars, List.filter_cons]
      rw [b64Keep_sextetChar _ (by omega), b64Keep_sextetChar _ (by omega),
        b64Keep_sextetChar _ (by omega)]
      simp [b64Keep]
  | [a], h => by
      have ha : a < 256 := h a (by simp)
      simp only [b64encodeChars, List.filter_cons]
      rw [b64Keep_sextetChar _ (by omega), b64Keep_sextetChar _ (by omega)]
      simp [b64Keep]
  | [], _ => by simp [b64encodeChars]

theorem b64decodeQuads_encodeChars : ∀ l : List Nat, (∀ b ∈ l, b < 256) →
    b64decodeQuads (b64encodeChars l) = some l
  | a :: b :: c :: rest, h => by
      have ha : a < 256 := h a (by simp)
      have hb : b < 256 := h b (by simp)
      have hc : c < 256 := h c (by simp)
      have ih := b64decodeQuads_encodeChars rest (fun x hx => h x (by simp [hx]))
      simp only [b64encodeChars, b64decodeQuads]
      rw [if_neg, if_neg, if_pos]
      · rw [ih]
        rw [charSextet_sextetChar _ (by omega), charSextet_sextetChar _ (by omega),
          charSextet_sextetChar _ (by omega), charSextet_sextetChar _ (by omega)]
        have e1 : a / 4 * 4 + ((a % 4) * 16 + b / 16) / 16 = a := by omega
        have e2 : ((a % 4) * 16 + b / 16) % 16 * 16 + ((b % 16) * 4 + c / 64) / 4 = b := by omega
        have e3 : ((b % 16) * 4 + c / 64) % 4 * 64 + c % 64 = c := by omega
        rw [e1, e2, e3]
      · refine ⟨?_, ?_, ?_, ?_⟩ <;> exact sextetChar_ne_pad _ (by omega)
      · intro hco
        exact sextetChar_ne_pad _ (by omega) hco.1
      · intro hco
        exact sextetChar_ne_pad _ (by omega) hco.1
  | [a, b], h => by
      have ha : a < 256 := h a (by simp)
      have hb : b < 256 := h b (by simp)
      simp only [b64encodeChars, b64decodeQuads]
      rw [if_neg, if_pos]
      · rw [charSextet_sextetChar _ (by omega), charSextet_sextetChar _ (by omega),
          charSextet_sextetChar _ (by omega)]
        have e1 : a / 4 * 4 + ((a % 4) * 16 + b / 16) / 16 = a := by omega
        have e2 : ((a % 4) * 16 + b / 16) % 16 * 16 + ((b % 16) * 4) / 4 = b := by omega
        rw [e1, e2]
      · refine ⟨by trivial, by trivial, sextetChar_ne_pad _ (by omega)⟩
      · intro hco
        exact sextetChar_ne_pad _ (by omega) hco.1
  | [a], h => by
      have ha : a < 256 := h a (by simp)
      simp only [b64encodeChars, b64decodeQuads]
      rw [if_pos]
      · rw [charSextet_sextetChar _ (by omega), charSextet_sextetChar _ (by omega)]
        have e1 : a / 4 * 4 + ((a % 4) * 16) / 16 = a := by omega
        rw [e1]
      · refine ⟨by trivial, by trivial, by trivial⟩
  | [], _ => by simp [b64encodeChars, b64decodeQuads]

/-- Round trip: decoding an encoded byte list recovers it. -/
theorem b64decode_b64encode (l : List Nat) (h : ∀ b ∈ l, b < 256) :
    b64decode (b64encode l) = some l := by
  unfold b64decode b64encode
  rw [show (String.mk (b64encodeChars l)).toList = b64encodeChars l from rfl,
    filter_b64encodeChars l h, b64decodeQuads_encodeChars l h]

/-! ## Helper lemmas about `generate_image` and the loop -/

/-- Case analysis of one `generate_image` call: it either succeeds —
returning the session path of `image-NN.png` and writing exactly that
one file, with nothing on stderr — or fails, returning `none`,
writing nothing, and logging one failure line that names the index. -/
theorem generate_image_spec (prompt : String) (index : Nat)
    (output_path : String) (r : Except String Response) :
    (∃ buf, (generate_image prompt index output_path r).result
        = some (output_path ++ "/" ++ imageFilename index) ∧
      (generate_image prompt index output_path r).written
        = [(imageFilename index, buf)] ∧
      (generate_image prompt index output_path r).errLog = []) ∨
    ((generate_image prompt index output_path r).result = none ∧
      (generate_image prompt index output_path r).written = [] ∧
      ∃ m, (generate_image prompt index output_path r).errLog
        = [failMsg index m]) := by
  rcases r with e | resp
  · right
    exact ⟨rfl, rfl, ⟨e, rfl⟩⟩
  · rcases hc : resp.candidates with _ | ⟨cand, restc⟩
    · right
      simp [generate_image, hc]
    · rcases hf : firstInline cand.parts with _ | blob
      · right
        simp [generate_image, hc, hf]
      · rcases hd : decodePayload blob.data with _ | buffer
        · right
          simp [generate_image, hc, hf, hd]
        · left
          exact ⟨buffer, by simp [generate_image, hc, hf, hd]⟩

theorem gen_success_out (prompt : String) (index : Nat) (d : String)
    (r : Except String Response)
    (h : (generate_image prompt index d r).result.isSome) :
    ∃ buf, (generate_image prompt index d r).written
        = [(imageFilename index, buf)] ∧
      (generate_image prompt index d r).errLog = [] := by
  rcases generate_image_spec prompt index d r with ⟨buf, _, hw, he⟩ | ⟨hn, _, _⟩
  · exact ⟨buf, hw, he⟩
  · rw [hn] at h; simp at h

theorem gen_fail_out (prompt : String) (index : Nat) (d : String)
    (r : Except String Response)
    (h : (generate_image prompt index d r).result = none) :
    (generate_image prompt index d r).written = [] ∧
      ∃ m, (generate_image prompt index d r).errLog = [failMsg index m] := by
  rcases generate_image_spec prompt index d r with ⟨buf, hs, _, _⟩ | ⟨_, hw, he⟩
  · rw [hs] at h; simp at h
  · exact ⟨hw, he⟩

theorem flatMap_eq_filter_map {α β : Type} (p : α → Bool) (f : α → List β)
    (g : α → β) :
    ∀ is : List α,
      (∀ i ∈ is, (p i = true → f i = [g i]) ∧ (p i = false → f i = [])) →
      is.flatMap f = (is.filter p).map g := by
  intro is h
  induction is with
  | nil => simp
  | cons i rest ih =>
    have hi := h i (by simp)
    have ih' := ih (fun x hx => h x (by simp [hx]))
    cases hp : p i with
    | true => simp [List.flatMap_cons, List.filter_cons, hp, hi.1 hp, ih']
    | false => simp [List.flatMap_cons, List.filter_cons, hp, hi.2 hp, ih']

theorem length_filterMap_all_some {α β : Type} (f : α → Option β) :
    ∀ is : List α, (∀ i ∈ is, (f i).isSome) →
      (is.filterMap f).length = is.length := by
  intro is h
  induction is with
  | nil => simp
  | cons i rest ih =>
    have hi := h i (by simp)
    rcases Option.isSome_iff_exists.mp hi with ⟨b, hb⟩
    simp [List.filterMap_cons, hb, ih (fun x hx => h x (by simp [hx]))]

theorem length_filterMap_one_none {α β : Type} (f : α → Option β) (j : α) :
    ∀ is : List α, is.Nodup → j ∈ is → f j = none →
      (∀ i ∈ is, i ≠ j → (f i).isSome) →
      (is.filterMap f).length = is.length - 1 := by
  intro is hnd hj hfj h
  induction is with
  | nil => simp at hj
  | cons i rest ih =>
    rcases List.mem_cons.mp hj with rfl | hjr
    · have hrest : ∀ x ∈ rest, (f x).isSome := by
        intro x hx
        refine h x (by simp [hx]) ?_
        rintro rfl
        exact (List.nodup_cons.mp hnd).1 hx
      simp [List.filterMap_cons, hfj,
        length_filterMap_all_some f rest hrest]
    · have hij : i ≠ j := by
        rintro rfl
        exact (List.nodup_cons.mp hnd).1 hjr
      rcases Option.isSome_iff_exists.mp (h i (by simp) hij) with ⟨b, hb⟩
      have hrl : 1 ≤ rest.length := List.length_pos.mpr (List.ne_nil_of_mem hjr)
      have := ih (List.nodup_cons.mp hnd).2 hjr
        (fun x hx hxj => h x (by simp [hx]) hxj)
      simp only [List.filterMap_cons, hb, List.length_cons, this]
      omega

theorem genLoop_files (prompt dir : String)
    (oracle : Nat → Except String Response) (count : Nat) :
    ∀ is : List Nat, (genLoop prompt dir oracle count is).files
      = is.flatMap (fun i => (generate_image prompt i dir (oracle i)).written) := by
  intro is
  induction is with
  | nil => rfl
  | cons i rest ih => simp [genLoop, ih]

theorem genLoop_errLog (prompt dir : String)
    (oracle : Nat → Except String Response) (count : Nat) :
    ∀ is : List Nat, (genLoop prompt dir oracle count is).errLog
      = is.flatMap (fun i => (generate_image prompt i dir (oracle i)).errLog) := by
  intro is
  induction is with
  | nil => rfl
  | cons i rest ih => simp [genLoop, ih]

theorem genLoop_successful (prompt dir : String)
    (oracle : Nat → Except String Response) (count : Nat) :
    ∀ is : List Nat, (genLoop prompt dir oracle count is).successful_images
      = is.filterMap (fun i => (generate_image prompt i dir (oracle i)).result) := by
  intro is
  induction is with
  | nil => rfl
  | cons i rest ih =>
    simp only [genLoop, List.filterMap_cons, ih]
    rcases (generate_image prompt i dir (oracle i)).result with _ | p <;> simp

theorem genLoop_events (prompt dir : String)
    (oracle : Nat → Except String Response) (count : Nat) :
    ∀ is : List Nat, (genLoop prompt dir oracle count is).events
      = is.flatMap (fun i => Event.request i ::
          ((generate_image prompt i dir (oracle i)).written.map
              (fun f => Event.writeFile f.1) ++
            (if i < count then [Event.sleep 1] else []))) := by
  intro is
  induction is with
  | nil => rfl
  | cons i rest ih => simp [genLoop, ih]

/-! ## Event-trace counting lemmas -/

theorem isRequestEv_writeFile (n : String) :
    isRequestEv (Event.writeFile n) = false := rfl

theorem isSleepEv_writeFile (n : String) :
    isSleepEv (Event.writeFile n) = false := rfl

theorem filter_isRequestEv_writes (l : List (String × List Nat)) :
    (l.map (fun f => Event.writeFile f.1)).filter isRequestEv = [] := by
  induction l with
  | nil => rfl
  | cons a t ih => simp [List.filter_cons, isRequestEv_writeFile, ih]

theorem filter_isSleepEv_writes (l : List (String × List Nat)) :
    (l.map (fun f => Event.writeFile f.1)).filter isSleepEv = [] := by
  induction l with
  | nil => rfl
  | cons a t ih => simp [List.filter_cons, isSleepEv_writeFile, ih]

theorem filter_reqOrSleep_writes (l : List (String × List Nat)) :
    (l.map (fun f => Event.writeFile f.1)).filter
      (fun e => isRequestEv e || isSleepEv e) = [] := by
  induction l with
  | nil => rfl
  | cons a t ih =>
      simp [List.filter_cons, isRequestEv_writeFile, isSleepEv_writeFile, ih]

theorem requestCount_append (a b : List Event) :
    requestCount (a ++ b) = requestCount a + requestCount b := by
  simp [requestCount, List.filter_append]

theorem sleepCount_append (a b : List Event) :
    sleepCount (a ++ b) = sleepCount a + sleepCount b := by
  simp [sleepCount, List.filter_append]

theorem requestCount_genLoop (prompt dir : String)
    (oracle : Nat → Except String Response) (count : Nat) :
    ∀ is : List Nat,
      requestCount ((genLoop prompt dir oracle count is).events) = is.length := by
  intro is
  induction is with
  | nil => rfl
  | cons i rest ih =>
    show requestCount ((Event.request i ::
      ((generate_image prompt i dir (oracle i)).written.map
        (fun f => Event.writeFile f.1) ++
        (if i < count then [Event.sleep 1] else []))) ++
      (genLoop prompt dir oracle count rest).events) = rest.length + 1
    rw [requestCount_append, ih]
    have h1 : requestCount (Event.request i ::
        ((generate_image prompt i dir (oracle i)).written.map
          (fun f => Event.writeFile f.1) ++
          (if i < count then [Event.sleep 1] else []))) = 1 := by
      simp only [requestCount, List.filter_cons, List.filter_append,
        filter_isRequestEv_writes]
      by_cases hi : i < count
      · simp [hi, isRequestEv]
      · simp [hi, isRequestEv]
    omega

theorem sleepCount_genLoop (prompt dir : String)
    (oracle : Nat → Except String Response) (count : Nat) :
    ∀ is : List Nat,
      sleepCount ((genLoop prompt dir oracle count is).events)
        = (is.filter (fun i => decide (i < count))).length := by
  intro is
  induction is with
  | nil => rfl
  | cons i rest ih =>
    show sleepCount ((Event.request i ::
      ((generate_image prompt i dir (oracle i)).written.map
        (fun f => Event.writeFile f.1) ++
        (if i < count then [Event.sleep 1] else []))) ++
      (genLoop prompt dir oracle count rest).events)
      = ((i :: rest).filter (fun i => decide (i < count))).length
    rw [sleepCount_append, ih]
    simp only [sleepCount, List.filter_cons, List.filter_append,
      filter_isSleepEv_writes]
    by_cases hi : i < count
    · simp [hi, isSleepEv]
      omega
    · simp [hi, isSleepEv]

theorem reqSleepFilter_genLoop (prompt dir : String)
    (oracle : Nat → Except String Response) (count : Nat) :
    ∀ is : List Nat,
      ((genLoop prompt dir oracle count is).events).filter
          (fun e => isRequestEv e || isSleepEv e)
        = is.flatMap (fun i => Event.request i ::
            (if i < count then [Event.sleep 1] else [])) := by
  intro is
  induction is with
  | nil => rfl
  | cons i rest ih =>
    show ((Event.request i ::
      ((generate_image prompt i dir (oracle i)).written.map
        (fun f => Event.writeFile f.1) ++
        (if i < count then [Event.sleep 1] else []))) ++
      (genLoop prompt dir oracle count rest).events).filter _ = _
    rw [List.filter_append, ih]
    simp only [List.filter_cons, List.filter_append, filter_reqOrSleep_writes,
      List.flatMap_cons]
    by_cases hi : i < count
    · simp [hi, isRequestEv, isSleepEv]
    · simp [hi, isRequestEv, isSleepEv]

theorem range'_filter_lt (N : Nat) :
    (List.range' 1 N).filter (fun i => decide (i < N)) = List.range' 1 (N - 1) := by
  cases N with
  | zero => rfl
  | succ M =>
    rw [List.range'_concat, List.filter_append]
    have h1 : (List.range' 1 M).filter (fun i => decide (i < M + 1))
        = List.range' 1 M := by
      rw [List.filter_eq_self]
      intro a ha
      have := List.mem_range'_1.mp ha
      simp only [decide_eq_true_eq]
      omega
    have h2 : ([1 + 1 * M].filter (fun i => decide (i < M + 1))) = [] := by
      simp only [List.filter_cons, List.filter_nil, decide_eq_true_eq]
      have h3 : ¬(1 + 1 * M < M + 1) := by omega
      simp [h3]
      omega
    rw [h1, h2]
    simp

/-! ## Claims C1, C2, C6 -/

/-- `main` when validation passes, with the `match` resolved. -/
theorem mainExec_valid (cfg : Config) (argv : List String)
    (oracle : Nat → Except String Response) (tDir tMeta : PyDateTime)
    (hv : validate_args cfg argv = none) :
    mainExec cfg argv oracle tDir tMeta =
      ({ stderr := (genLoop (argv.getD 1 "")
            (create_timestamped_directory (cfg.OUTPUT_DIR.getD "") tDir)
            oracle cfg.IMAGE_COUNT (List.range' 1 cfg.IMAGE_COUNT)).errLog
         files := ("prompt.txt", FileData.text (save_prompt_file cfg
              (create_timestamped_directory (cfg.OUTPUT_DIR.getD "") tDir)
              (argv.getD 1 "") tMeta)) ::
            (genLoop (argv.getD 1 "")
              (create_timestamped_directory (cfg.OUTPUT_DIR.getD "") tDir)
              oracle cfg.IMAGE_COUNT (List.range' 1 cfg.IMAGE_COUNT)).files.map
              (fun f => (f.1, FileData.binary f.2))
         events := Event.writeFile "prompt.txt" ::
            (genLoop (argv.getD 1 "")
              (create_timestamped_directory (cfg.OUTPUT_DIR.getD "") tDir)
              oracle cfg.IMAGE_COUNT (List.range' 1 cfg.IMAGE_COUNT)).events
         successCount := (genLoop (argv.getD 1 "")
            (create_timestamped_directory (cfg.OUTPUT_DIR.getD "") tDir)
            oracle cfg.IMAGE_COUNT (List.range' 1 cfg.IMAGE_COUNT)).successful_images.length
         session_dir :=
            create_timestamped_directory (cfg.OUTPUT_DIR.getD "") tDir },
       if (genLoop (argv.getD 1 "")
            (create_timestamped_directory (cfg.OUTPUT_DIR.getD "") tDir)
            oracle cfg.IMAGE_COUNT (List.range' 1 cfg.IMAGE_COUNT)).successful_images.length
          < cfg.IMAGE_COUNT
       then Except.error (PyErr.systemExit 1) else Except.ok ()) := by
  simp only [mainExec, hv]

/-- **C1.**  For a run that passes validation, if every one of the `N
= IMAGE_COUNT` generation calls succeeds, the session directory
receives exactly the files `prompt.txt`, `image-01.png`, …,
`image-NN.png` (in that order, the image index zero-padded to at
least two digits by `zfill(2)`), and the process exits with status
0. -/
theorem spec_C1_all_success (cfg : Config) (argv : List String)
    (oracle : Nat → Except String Response) (tDir tMeta : PyDateTime)
    (hv : validate_args cfg argv = none)
    (hs : ∀ i, 1 ≤ i → i ≤ cfg.IMAGE_COUNT →
      ((generate_image (argv.getD 1 "") i
        (create_timestamped_directory (cfg.OUTPUT_DIR.getD "") tDir)
        (oracle i)).result).isSome) :
    (runProgram cfg argv oracle tDir tMeta).exitCode = 0 ∧
    ((runProgram cfg argv oracle tDir tMeta).state.files.map Prod.fst
      = "prompt.txt" ::
          (List.range' 1 cfg.IMAGE_COUNT).map imageFilename) := by
  have hcount : ((genLoop (argv.getD 1 "")
      (create_timestamped_directory (cfg.OUTPUT_DIR.getD "") tDir)
      oracle cfg.IMAGE_COUNT
      (List.range' 1 cfg.IMAGE_COUNT)).successful_images).length
      = cfg.IMAGE_COUNT := by
    rw [genLoop_successful, length_filterMap_all_some]
    · simp
    · intro i hi
      have hm := List.mem_range'_1.mp hi
      exact hs i hm.1 (by omega)
  have hfiles : ((genLoop (argv.getD 1 "")
      (create_timestamped_directory (cfg.OUTPUT_DIR.getD "") tDir)
      oracle cfg.IMAGE_COUNT
      (List.range' 1 cfg.IMAGE_COUNT)).files).map Prod.fst
      = (List.range' 1 cfg.IMAGE_COUNT).map imageFilename := by
    rw [genLoop_files, List.map_flatMap]
    rw [flatMap_eq_filter_map (fun _ => true) _ imageFilename]
    · simp
    · intro i hi
      refine ⟨fun _ => ?_, fun h => by simp at h⟩
      have hm := List.mem_range'_1.mp hi
      rcases gen_success_out (argv.getD 1 "") i
        (create_timestamped_directory (cfg.OUTPUT_DIR.getD "") tDir)
        (oracle i) (hs i hm.1 (by omega)) with ⟨buf, hw, _⟩
      rw [hw]
      rfl
  rw [runProgram, mainExec_valid cfg argv oracle tDir tMeta hv]
  rw [hcount]
  simp only [lt_irrefl, if_false, pythonDriver]
  refine ⟨trivial, ?_⟩
  simp only [List.map_cons, List.map_map]
  exact congrArg (fun l => "prompt.txt" :: l) hfiles



/-- **C2.**  If validation passes and exactly one index `j` of the `N
= IMAGE_COUNT` generation calls fails while all others succeed, the
run still performs all `N` requests, writes the successful images
under their index-derived filenames, reports a success count of
`N - 1`, and the process exits with status 1. -/
theorem spec_C2_one_failure (cfg : Config) (argv : List String)
    (oracle : Nat → Except String Response) (tDir tMeta : PyDateTime)
    (j : Nat) (hv : validate_args cfg argv = none)
    (hj1 : 1 ≤ j) (hjN : j ≤ cfg.IMAGE_COUNT)
    (hfail : (generate_image (argv.getD 1 "") j
      (create_timestamped_directory (cfg.OUTPUT_DIR.getD "") tDir)
      (oracle j)).result = none)
    (hs : ∀ i, 1 ≤ i → i ≤ cfg.IMAGE_COUNT → i ≠ j →
      ((generate_image (argv.getD 1 "") i
        (create_timestamped_directory (cfg.OUTPUT_DIR.getD "") tDir)
        (oracle i)).result).isSome) :
    (runProgram cfg argv oracle tDir tMeta).exitCode = 1 ∧
    (runProgram cfg argv oracle tDir tMeta).state.successCount
      = cfg.IMAGE_COUNT - 1 ∧
    requestCount (runProgram cfg argv oracle tDir tMeta).state.events
      = cfg.IMAGE_COUNT ∧
    ((runProgram cfg argv oracle tDir tMeta).state.files.map Prod.fst
      = "prompt.txt" ::
          ((List.range' 1 cfg.IMAGE_COUNT).filter (fun i => i != j)).map
            imageFilename) := by
  have hcount : ((genLoop (argv.getD 1 "")
      (create_timestamped_directory (cfg.OUTPUT_DIR.getD "") tDir)
      oracle cfg.IMAGE_COUNT
      (List.range' 1 cfg.IMAGE_COUNT)).successful_images).length
      = cfg.IMAGE_COUNT - 1 := by
    rw [genLoop_successful,
      length_filterMap_one_none _ j _ (List.nodup_range' 1 cfg.IMAGE_COUNT)
        (List.mem_range'_1.mpr ⟨hj1, by omega⟩) hfail
        (fun i hi hij => hs i (List.mem_range'_1.mp hi).1
          (by have := List.mem_range'_1.mp hi; omega) hij)]
    simp
  have hfiles : ((genLoop (argv.getD 1 "")
      (create_timestamped_directory (cfg.OUTPUT_DIR.getD "") tDir)
      oracle cfg.IMAGE_COUNT
      (List.range' 1 cfg.IMAGE_COUNT)).files).map Prod.fst
      = ((List.range' 1 cfg.IMAGE_COUNT).filter (fun i => i != j)).map
          imageFilename := by
    rw [genLoop_files, List.map_flatMap]
    rw [flatMap_eq_filter_map (fun i => i != j) _ imageFilename]
    intro i hi
    have hm := List.mem_range'_1.mp hi
    constructor
    · intro hp
      have hij : i ≠ j := by simpa using hp
      rcases gen_success_out (argv.getD 1 "") i
        (create_timestamped_directory (cfg.OUTPUT_DIR.getD "") tDir)
        (oracle i) (hs i hm.1 (by omega) hij) with ⟨buf, hw, _⟩
      rw [hw]
      rfl
    · intro hp
      have hij : i = j := by simpa using hp
      subst hij
      rcases gen_fail_out (argv.getD 1 "") i
        (create_timestamped_directory (cfg.OUTPUT_DIR.getD "") tDir)
        (oracle i) hfail with ⟨hw, _⟩
      rw [hw]
      rfl
  have hreq : requestCount ((genLoop (argv.getD 1 "")
      (create_timestamped_directory (cfg.OUTPUT_DIR.getD "") tDir)
      oracle cfg.IMAGE_COUNT
      (List.range' 1 cfg.IMAGE_COUNT)).events) = cfg.IMAGE_COUNT := by
    rw [requestCount_genLoop]
    simp
  rw [runProgram, mainExec_valid cfg argv oracle tDir tMeta hv]
  rw [hcount]
  have hlt : cfg.IMAGE_COUNT - 1 < cfg.IMAGE_COUNT := by omega
  simp only [hlt, if_true, pythonDriver]
  refine ⟨trivial, trivial, ?_, ?_⟩
  · simp only [requestCount, List.filter_cons]
    rw [show isRequestEv (Event.writeFile "prompt.txt") = false from rfl]
    simp only [Bool.false_eq_true, if_false]
    exact hreq
  · simp only [List.map_cons, List.map_map]
    exact congrArg (fun l => "prompt.txt" :: l) hfiles

/-- **C6.**  `generate_image` never propagates an exception: for
every API outcome it either succeeds — writing exactly one file,
named by the index, with nothing on stderr — or returns the failure
sentinel `None`, writes no file, and logs one error line carrying the
image index. -/
theorem spec_C6_gen_total (prompt : String) (index : Nat) (dir : String)
    (r : Except String Response) :
    (((generate_image prompt index dir r).result).isSome →
      ∃ buf, (generate_image prompt index dir r).written
          = [(imageFilename index, buf)] ∧
        (generate_image prompt index dir r).errLog = []) ∧
    ((generate_image prompt index dir r).result = none →
      (generate_image prompt index dir r).written = [] ∧
      ∃ m, (generate_image prompt index dir r).errLog
        = [failMsg index m]) :=
  ⟨fun h => gen_success_out prompt index dir r h,
   fun h => gen_fail_out prompt index dir r h⟩

/-- Witness for C6 at a concrete failing call. -/
theorem spec_C6_witness :
    (generate_image "p" 7 "/s" (Except.error "boom")).written = [] :=
  ((spec_C6_gen_total "p" 7 "/s" (Except.error "boom")).2 rfl).1



/-- Witness for C1: one image requested, the call succeeds, the run
exits 0 with `prompt.txt` and `image-01.png`. -/
theorem spec_C1_witness :
    (runProgram (defaultConfig (some "/out") (some "key")) ["main.py", "cat"]
        (fun _ => Except.ok ⟨[⟨[⟨some ⟨some (PyData.bytes [1, 2])⟩⟩]⟩]⟩)
        ⟨2026, 1, 2, 3, 4, 5, 6⟩ ⟨2026, 1, 2, 3, 4, 6, 7⟩).exitCode = 0 ∧
    ((runProgram (defaultConfig (some "/out") (some "key")) ["main.py", "cat"]
        (fun _ => Except.ok ⟨[⟨[⟨some ⟨some (PyData.bytes [1, 2])⟩⟩]⟩]⟩)
        ⟨2026, 1, 2, 3, 4, 5, 6⟩ ⟨2026, 1, 2, 3, 4, 6, 7⟩).state.files.map
        Prod.fst
      = ["prompt.txt", "image-01.png"]) := by
  have h := spec_C1_all_success (defaultConfig (some "/out") (some "key"))
    ["main.py", "cat"]
    (fun _ => Except.ok ⟨[⟨[⟨some ⟨some (PyData.bytes [1, 2])⟩⟩]⟩]⟩)
    ⟨2026, 1, 2, 3, 4, 5, 6⟩ ⟨2026, 1, 2, 3, 4, 6, 7⟩ rfl
    (fun i h1 hN => by
      have hi : i = 1 := by
        simp only [defaultConfig] at hN
        omega
      subst hi
      rfl)
  exact h

/-- Witness for C2: three images requested, the second call fails,
the run exits 1 reporting two successes and writes the two other
images. -/
theorem spec_C2_witness :
    (runProgram ⟨some "/out", 3, "3:2", "1K", "0.2", "0.95", some "key"⟩
        ["main.py", "cat"]
        (fun i => if i = 2 then Except.error "boom"
          else Except.ok ⟨[⟨[⟨some ⟨some (PyData.bytes [9])⟩⟩]⟩]⟩)
        ⟨2026, 1, 2, 3, 4, 5, 6⟩ ⟨2026, 1, 2, 3, 4, 6, 7⟩).exitCode = 1 ∧
    (runProgram ⟨some "/out", 3, "3:2", "1K", "0.2", "0.95", some "key"⟩
        ["main.py", "cat"]
        (fun i => if i = 2 then Except.error "boom"
          else Except.ok ⟨[⟨[⟨some ⟨some (PyData.bytes [9])⟩⟩]⟩]⟩)
        ⟨2026, 1, 2, 3, 4, 5, 6⟩ ⟨2026, 1, 2, 3, 4, 6, 7⟩).state.successCount
      = 2 ∧
    requestCount (runProgram ⟨some "/out", 3, "3:2", "1K", "0.2", "0.95",
        some "key"⟩ ["main.py", "cat"]
        (fun i => if i = 2 then Except.error "boom"
          else Except.ok ⟨[⟨[⟨some ⟨some (PyData.bytes [9])⟩⟩]⟩]⟩)
        ⟨2026, 1, 2, 3, 4, 5, 6⟩ ⟨2026, 1, 2, 3, 4, 6, 7⟩).state.events = 3 ∧
    ((runProgram ⟨some "/out", 3, "3:2", "1K", "0.2", "0.95", some "key"⟩
        ["main.py", "cat"]
        (fun i => if i = 2 then Except.error "boom"
          else Except.ok ⟨[⟨[⟨some ⟨some (PyData.bytes [9])⟩⟩]⟩]⟩)
        ⟨2026, 1, 2, 3, 4, 5, 6⟩ ⟨2026, 1, 2, 3, 4, 6, 7⟩).state.files.map
        Prod.fst
      = ["prompt.txt", "image-01.png", "image-03.png"]) := by
  have h := spec_C2_one_failure
    ⟨some "/out", 3, "3:2", "1K", "0.2", "0.95", some "key"⟩
    ["main.py", "cat"]
    (fun i => if i = 2 then Except.error "boom"
      else Except.ok ⟨[⟨[⟨some ⟨some (PyData.bytes [9])⟩⟩]⟩]⟩)
    ⟨2026, 1, 2, 3, 4, 5, 6⟩ ⟨2026, 1, 2, 3, 4, 6, 7⟩ 2 rfl
    (by omega) (by decide) rfl
    (fun i h1 hN hij => by
      have hi : i = 1 ∨ i = 3 := by
        change i ≤ 3 at hN
        omega
      rcases hi with rfl | rfl
      · rfl
      · rfl)
  exact h


/-! ## Claims C3, C10, C5 -/

/-- **C3.**  With a missing API key, missing output directory, or
missing prompt argument, the process exits 1 before any event (no
file write, no network request), and stderr holds exactly the usage
message of the first failing check, in the fixed order API key →
output directory → prompt. -/
theorem spec_C3_validation (cfg : Config) (argv : List String)
    (oracle : Nat → Except String Response) (tDir tMeta : PyDateTime)
    (h : cfg.API_KEY = none ∨ cfg.OUTPUT_DIR = none ∨ argv.length < 2) :
    (runProgram cfg argv oracle tDir tMeta).exitCode = 1 ∧
    (runProgram cfg argv oracle tDir tMeta).state.events = [] ∧
    requestCount (runProgram cfg argv oracle tDir tMeta).state.events = 0 ∧
    (runProgram cfg argv oracle tDir tMeta).stderr
      = (if strFalsy cfg.API_KEY then apiKeyErrLines
         else if strFalsy cfg.OUTPUT_DIR then outDirErrLines
         else promptErrLines) := by
  have hv : validate_args cfg argv
      = some (if strFalsy cfg.API_KEY then apiKeyErrLines
          else if strFalsy cfg.OUTPUT_DIR then outDirErrLines
          else promptErrLines) := by
    unfold validate_args
    by_cases h1 : strFalsy cfg.API_KEY
    · simp [h1]
    · by_cases h2 : strFalsy cfg.OUTPUT_DIR
      · simp [h1, h2]
      · have h3 : argv.length < 2 := by
          rcases h with hk | hd | hp
          · exact absurd (by rw [hk]; rfl) h1
          · exact absurd (by rw [hd]; rfl) h2
          · exact hp
        simp [h1, h2, h3]
  simp [runProgram, mainExec, hv, pythonDriver, requestCount]

/-- Witness for C3 with the API key unset. -/
theorem spec_C3_witness :
    (runProgram (defaultConfig (some "/out") none) ["main.py", "cat"]
        (fun _ => Except.error "never")
        ⟨2026, 1, 2, 3, 4, 5, 6⟩ ⟨2026, 1, 2, 3, 4, 6, 7⟩).exitCode = 1 ∧
    (runProgram (defaultConfig (some "/out") none) ["main.py", "cat"]
        (fun _ => Except.error "never")
        ⟨2026, 1, 2, 3, 4, 5, 6⟩ ⟨2026, 1, 2, 3, 4, 6, 7⟩).state.events = [] ∧
    requestCount (runProgram (defaultConfig (some "/out") none)
        ["main.py", "cat"] (fun _ => Except.error "never")
        ⟨2026, 1, 2, 3, 4, 5, 6⟩ ⟨2026, 1, 2, 3, 4, 6, 7⟩).state.events = 0 ∧
    (runProgram (defaultConfig (some "/out") none) ["main.py", "cat"]
        (fun _ => Except.error "never")
        ⟨2026, 1, 2, 3, 4, 5, 6⟩ ⟨2026, 1, 2, 3, 4, 6, 7⟩).stderr
      = apiKeyErrLines := by
  have h := spec_C3_validation (defaultConfig (some "/out") none)
    ["main.py", "cat"] (fun _ => Except.error "never")
    ⟨2026, 1, 2, 3, 4, 5, 6⟩ ⟨2026, 1, 2, 3, 4, 6, 7⟩ (Or.inl rfl)
  exact h

/-- **C10.**  The driver's `except Exception` does not catch
`SystemExit`: any `sys.exit(c)` escaping `main` sets the process
exit status to `c` with stderr unchanged, and in particular every
run in which `main` raises `SystemExit(1)` exits with exactly status
1 and prints no extra `Fatal Error` line. -/
theorem spec_C10_systemexit (cfg : Config) (argv : List String)
    (oracle : Nat → Except String Response) (tDir tMeta : PyDateTime) :
    (∀ (st : MainState) (c : Nat),
      pythonDriver (st, Except.error (PyErr.systemExit c))
        = ⟨c, st.stderr, st⟩) ∧
    ((mainExec cfg argv oracle tDir tMeta).2
        = Except.error (PyErr.systemExit 1) →
      (runProgram cfg argv oracle tDir tMeta).exitCode = 1 ∧
      (runProgram cfg argv oracle tDir tMeta).stderr
        = (mainExec cfg argv oracle tDir tMeta).1.stderr) := by
  constructor
  · intro st c
    rfl
  · intro h
    simp [runProgram, pythonDriver, h]

/-- Witness for C10 at a run whose validation fails (so `main`
raises `SystemExit(1)`). -/
theorem spec_C10_witness :
    (runProgram (defaultConfig none none) ["main.py"]
        (fun _ => Except.error "never")
        ⟨2026, 1, 2, 3, 4, 5, 6⟩ ⟨2026, 1, 2, 3, 4, 6, 7⟩).exitCode = 1 ∧
    (runProgram (defaultConfig none none) ["main.py"]
        (fun _ => Except.error "never")
        ⟨2026, 1, 2, 3, 4, 5, 6⟩ ⟨2026, 1, 2, 3, 4, 6, 7⟩).stderr
      = (mainExec (defaultConfig none none) ["main.py"]
          (fun _ => Except.error "never")
          ⟨2026, 1, 2, 3, 4, 5, 6⟩ ⟨2026, 1, 2, 3, 4, 6, 7⟩).1.stderr :=
  (spec_C10_systemexit (defaultConfig none none) ["main.py"]
    (fun _ => Except.error "never")
    ⟨2026, 1, 2, 3, 4, 5, 6⟩ ⟨2026, 1, 2, 3, 4, 6, 7⟩).2 rfl

/-- **C5.**  The same image delivered as raw bytes or as its
base64-encoded text form leads to the identical byte sequence being
written to `image-NN.png`. -/
theorem spec_C5_payload (data : List Nat) (h : ∀ b ∈ data, b < 256)
    (prompt : String) (index : Nat) (dir : String) :
    (generate_image prompt index dir
        (Except.ok ⟨[⟨[⟨some ⟨some (PyData.bytes data)⟩⟩]⟩]⟩)).written
      = [(imageFilename index, data)] ∧
    (generate_image prompt index dir
        (Except.ok ⟨[⟨[⟨some ⟨some
          (PyData.str (b64encode data))⟩⟩]⟩]⟩)).written
      = [(imageFilename index, data)] := by
  constructor
  · rfl
  · simp [generate_image, firstInline, decodePayload,
      b64decode_b64encode data h]

/-- Witness for C5 on a concrete payload. -/
theorem spec_C5_witness :
    (generate_image "p" 1 "/s"
        (Except.ok ⟨[⟨[⟨some ⟨some (PyData.bytes [0, 255, 77])⟩⟩]⟩]⟩)).written
      = [(imageFilename 1, [0, 255, 77])] ∧
    (generate_image "p" 1 "/s"
        (Except.ok ⟨[⟨[⟨some ⟨some
          (PyData.str (b64encode [0, 255, 77]))⟩⟩]⟩]⟩)).written
      = [(imageFilename 1, [0, 255, 77])] :=
  spec_C5_payload [0, 255, 77] (by decide) "p" 1 "/s"


/-! ## Claims C4, C9, C8 -/

theorem intercalate_go_append (s : String) : ∀ (as : List String)
    (acc₁ acc₂ : String),
    String.intercalate.go (acc₁ ++ acc₂) s as
      = acc₁ ++ String.intercalate.go acc₂ s as := by
  intro as
  induction as with
  | nil => intro acc₁ acc₂; rfl
  | cons a t ih =>
    intro acc₁ acc₂
    show String.intercalate.go (acc₁ ++ acc₂ ++ s ++ a) s t
      = acc₁ ++ String.intercalate.go (acc₂ ++ s ++ a) s t
    rw [String.append_assoc, String.append_assoc,
      ← String.append_assoc acc₂ s a]
    exact ih acc₁ (acc₂ ++ s ++ a)

theorem intercalate_cons_cons (s a b : String) (rest : List String) :
    String.intercalate s (a :: b :: rest)
      = a ++ s ++ String.intercalate s (b :: rest) := by
  show String.intercalate.go a s (b :: rest)
    = a ++ s ++ String.intercalate.go b s rest
  show String.intercalate.go (a ++ s ++ b) s rest
    = a ++ s ++ String.intercalate.go b s rest
  exact intercalate_go_append s rest (a ++ s) b

/-- **C4.**  `prompt.txt` starts with the field `Prompt: ` followed
by the exact original prompt string — whatever characters it holds,
newlines included — then a newline and the remaining metadata
fields; the prompt is embedded verbatim with no escaping or
transformation. -/
theorem spec_C4_prompt_verbatim (cfg : Config)
    (session_dir prompt : String) (tMeta : PyDateTime) :
    save_prompt_file cfg session_dir prompt tMeta
      = "Prompt: " ++ prompt ++ "\n" ++ String.intercalate "\n"
          [ "Generated: " ++ String.mk (isoformatChars tMeta),
            "Model: gemini-2.5-flash-image",
            "Count: " ++ Nat.repr cfg.IMAGE_COUNT,
            "Aspect Ratio: " ++ cfg.IMAGE_ASPECT_RATIO,
            "Image Size: " ++ cfg.IMAGE_SIZE,
            "Temperature: " ++ cfg.TEMPERATURE,
            "Top P: " ++ cfg.TOP_P,
            "Output Directory: " ++ session_dir ] := by
  unfold save_prompt_file
  rw [intercalate_cons_cons]



theorem zfill_two_length (s : String) : 2 ≤ (zfill 2 s).length := by
  unfold zfill
  split
  · omega
  · rename_i h
    have : (String.mk (List.replicate (2 - s.length) '0') ++ s).length
        = (2 - s.length) + s.length := by
      rw [String.length_append, String.length_mk, List.length_replicate]
    omega

theorem imageFilename_ne_prompt (i : Nat) :
    imageFilename i ≠ "prompt.txt" := by
  intro h
  have hl := congrArg String.length h
  have hz := zfill_two_length (Nat.repr i)
  simp only [imageFilename, String.length_append] at hl
  have h6 : ("image-" : String).length = 6 := rfl
  have h4 : (".png" : String).length = 4 := rfl
  have h10 : ("prompt.txt" : String).length = 10 := rfl
  omega

theorem promptWrite_filter_genLoop (prompt dir : String)
    (oracle : Nat → Except String Response) (count : Nat) :
    ∀ is : List Nat,
      ((genLoop prompt dir oracle count is).events).filter
          (fun e => decide (e = Event.writeFile "prompt.txt")) = [] := by
  intro is
  induction is with
  | nil => rfl
  | cons i rest ih =>
    show ((Event.request i ::
      ((generate_image prompt i dir (oracle i)).written.map
        (fun f => Event.writeFile f.1) ++
        (if i < count then [Event.sleep 1] else []))) ++
      (genLoop prompt dir oracle count rest).events).filter _ = _
    rw [List.filter_append, ih]
    simp only [List.filter_cons, List.filter_append, List.append_nil]
    have hreq : decide (Event.request i = Event.writeFile "prompt.txt")
        = false := by simp
    rw [hreq]
    have hw : ((generate_image prompt i dir (oracle i)).written.map
        (fun f => Event.writeFile f.1)).filter
        (fun e => decide (e = Event.writeFile "prompt.txt")) = [] := by
      rcases generate_image_spec prompt i dir (oracle i) with
        ⟨buf, _, hwr, _⟩ | ⟨_, hwr, _⟩
      · rw [hwr]
        have hne : decide
            (Event.writeFile (imageFilename i)
              = Event.writeFile "prompt.txt") = false := by
          rw [decide_eq_false_iff_not]
          intro hh
          exact imageFilename_ne_prompt i (by injection hh)
        simp only [List.map_cons, List.map_nil, List.filter_cons, hne,
          Bool.false_eq_true, if_false, List.filter_nil]
      · rw [hwr]
        rfl
    rw [hw]
    by_cases hi : i < count
    · simp [hi]
    · simp [hi]

theorem pythonDriver_state (run : MainState × Except PyErr Unit) :
    (pythonDriver run).state = run.1 := by
  rcases run with ⟨st, r⟩
  rcases r with e | _
  · rcases e with c | m
    · rfl
    · rfl
  · rfl

/-- **C9.**  Every run that reaches the generation phase writes
`prompt.txt` exactly once, as its very first event — before any
image-generation request — so the metadata file is present in the
session directory whatever the oracle does, even when every
generation fails. -/
theorem spec_C9_metadata_first (cfg : Config) (argv : List String)
    (oracle : Nat → Except String Response) (tDir tMeta : PyDateTime)
    (hv : validate_args cfg argv = none) :
    ((runProgram cfg argv oracle tDir tMeta).state.events).head?
      = some (Event.writeFile "prompt.txt") ∧
    (((runProgram cfg argv oracle tDir tMeta).state.events).filter
        (fun e => decide (e = Event.writeFile "prompt.txt"))).length = 1 ∧
    (((runProgram cfg argv oracle tDir tMeta).state.files).map
        Prod.fst).head? = some "prompt.txt" := by
  rw [runProgram, pythonDriver_state, mainExec_valid cfg argv oracle tDir tMeta hv]
  refine ⟨rfl, ?_, rfl⟩
  simp only [List.filter_cons, decide_eq_true_eq]
  rw [promptWrite_filter_genLoop]
  simp

/-- Witness for C9: a valid run whose single generation fails still
has `prompt.txt` first. -/
theorem spec_C9_witness :
    ((runProgram (defaultConfig (some "/out") (some "key"))
        ["main.py", "cat"] (fun _ => Except.error "down")
        ⟨2026, 1, 2, 3, 4, 5, 6⟩ ⟨2026, 1, 2, 3, 4, 6, 7⟩).state.events).head?
      = some (Event.writeFile "prompt.txt") ∧
    (((runProgram (defaultConfig (some "/out") (some "key"))
        ["main.py", "cat"] (fun _ => Except.error "down")
        ⟨2026, 1, 2, 3, 4, 5, 6⟩ ⟨2026, 1, 2, 3, 4, 6, 7⟩).state.events).filter
        (fun e => decide (e = Event.writeFile "prompt.txt"))).length = 1 ∧
    (((runProgram (defaultConfig (some "/out") (some "key"))
        ["main.py", "cat"] (fun _ => Except.error "down")
        ⟨2026, 1, 2, 3, 4, 5, 6⟩ ⟨2026, 1, 2, 3, 4, 6, 7⟩).state.files).map
        Prod.fst).head? = some "prompt.txt" :=
  spec_C9_metadata_first (defaultConfig (some "/out") (some "key"))
    ["main.py", "cat"] (fun _ => Except.error "down")
    ⟨2026, 1, 2, 3, 4, 5, 6⟩ ⟨2026, 1, 2, 3, 4, 6, 7⟩ rfl

/-- **C8.**  The run controller is strictly sequential: restricted to
requests and pauses, the event trace is exactly request 1, pause,
request 2, pause, …, request N — one 1-second pause after every
request except the last — with N requests and N−1 pauses in total.
(The embedding awaits each request to completion before the next
event, so no two requests are ever in flight at once.) -/
theorem spec_C8_sequential (cfg : Config) (argv : List String)
    (oracle : Nat → Except String Response) (tDir tMeta : PyDateTime)
    (hv : validate_args cfg argv = none) :
    ((runProgram cfg argv oracle tDir tMeta).state.events).filter
        (fun e => isRequestEv e || isSleepEv e)
      = (List.range' 1 cfg.IMAGE_COUNT).flatMap
          (fun i => Event.request i ::
            (if i < cfg.IMAGE_COUNT then [Event.sleep 1] else [])) ∧
    requestCount (runProgram cfg argv oracle tDir tMeta).state.events
      = cfg.IMAGE_COUNT ∧
    sleepCount (runProgram cfg argv oracle tDir tMeta).state.events
      = cfg.IMAGE_COUNT - 1 := by
  rw [runProgram, pythonDriver_state,
    mainExec_valid cfg argv oracle tDir tMeta hv]
  refine ⟨?_, ?_, ?_⟩
  · show (Event.writeFile "prompt.txt" ::
      (genLoop (argv.getD 1 "")
        (create_timestamped_directory (cfg.OUTPUT_DIR.getD "") tDir)
        oracle cfg.IMAGE_COUNT (List.range' 1 cfg.IMAGE_COUNT)).events).filter
        _ = _
    simp only [List.filter_cons]
    rw [show (isRequestEv (Event.writeFile "prompt.txt") ||
        isSleepEv (Event.writeFile "prompt.txt")) = false from rfl]
    simp only [Bool.false_eq_true, if_false]
    exact reqSleepFilter_genLoop _ _ _ _ _
  · show requestCount (Event.writeFile "prompt.txt" ::
      (genLoop (argv.getD 1 "")
        (create_timestamped_directory (cfg.OUTPUT_DIR.getD "") tDir)
        oracle cfg.IMAGE_COUNT (List.range' 1 cfg.IMAGE_COUNT)).events) = _
    simp only [requestCount, List.filter_cons]
    rw [show isRequestEv (Event.writeFile "prompt.txt") = false from rfl]
    simp only [Bool.false_eq_true, if_false]
    rw [show ∀ es, (List.filter isRequestEv es).length = requestCount es
      from fun _ => rfl]
    rw [requestCount_genLoop]
    simp
  · show sleepCount (Event.writeFile "prompt.txt" ::
      (genLoop (argv.getD 1 "")
        (create_timestamped_directory (cfg.OUTPUT_DIR.getD "") tDir)
        oracle cfg.IMAGE_COUNT (List.range' 1 cfg.IMAGE_COUNT)).events) = _
    simp only [sleepCount, List.filter_cons]
    rw [show isSleepEv (Event.writeFile "prompt.txt") = false from rfl]
    simp only [Bool.false_eq_true, if_false]
    rw [show ∀ es, (List.filter isSleepEv es).length = sleepCount es
      from fun _ => rfl]
    rw [sleepCount_genLoop, range'_filter_lt]
    simp

/-- Witness for C8 with three sequential requests. -/
theorem spec_C8_witness :
    ((runProgram ⟨some "/out", 3, "3:2", "1K", "0.2", "0.95", some "key"⟩
        ["main.py", "cat"] (fun _ => Except.error "down")
        ⟨2026, 1, 2, 3, 4, 5, 6⟩ ⟨2026, 1, 2, 3, 4, 6, 7⟩).state.events).filter
        (fun e => isRequestEv e || isSleepEv e)
      = [Event.request 1, Event.sleep 1, Event.request 2, Event.sleep 1,
         Event.request 3] ∧
    requestCount (runProgram ⟨some "/out", 3, "3:2", "1K", "0.2", "0.95",
        some "key"⟩ ["main.py", "cat"] (fun _ => Except.error "down")
        ⟨2026, 1, 2, 3, 4, 5, 6⟩ ⟨2026, 1, 2, 3, 4, 6, 7⟩).state.events = 3 ∧
    sleepCount (runProgram ⟨some "/out", 3, "3:2", "1K", "0.2", "0.95",
        some "key"⟩ ["main.py", "cat"] (fun _ => Except.error "down")
        ⟨2026, 1, 2, 3, 4, 5, 6⟩ ⟨2026, 1, 2, 3, 4, 6, 7⟩).state.events = 2 :=
  spec_C8_sequential ⟨some "/out", 3, "3:2", "1K", "0.2", "0.95", some "key"⟩
    ["main.py", "cat"] (fun _ => Except.error "down")
    ⟨2026, 1, 2, 3, 4, 5, 6⟩ ⟨2026, 1, 2, 3, 4, 6, 7⟩ rfl


/-! ## Claim C7: timestamped session directories -/

theorem padDigits_length (w n : Nat) : (padDigits w n).length = w := by
  simp [padDigits]

theorem padDigits_two (n : Nat) :
    padDigits 2 n = [Nat.digitChar (n / 10 % 10), Nat.digitChar (n % 10)] := by
  show (List.range 2).reverse.map (fun i => Nat.digitChar (n / 10 ^ i % 10))
    = _
  rw [show (List.range 2).reverse = [1, 0] from rfl]
  simp

theorem padDigits_four (n : Nat) :
    padDigits 4 n = [Nat.digitChar (n / 1000 % 10), Nat.digitChar (n / 100 % 10),
      Nat.digitChar (n / 10 % 10), Nat.digitChar (n % 10)] := by
  show (List.range 4).reverse.map (fun i => Nat.digitChar (n / 10 ^ i % 10))
    = _
  rw [show (List.range 4).reverse = [3, 2, 1, 0] from rfl]
  norm_num

theorem digitChar_inj (a b : Nat) (ha : a < 10) (hb : b < 10)
    (h : Nat.digitChar a = Nat.digitChar b) : a = b := by
  have hfin : ∀ x y : Fin 10,
      Nat.digitChar x = Nat.digitChar y → (x : Nat) = y := by decide
  exact hfin ⟨a, ha⟩ ⟨b, hb⟩ h

theorem replace_digitChar : ∀ d : Nat, d < 10 →
    replaceColonDot (Nat.digitChar d) = Nat.digitChar d := by decide

theorem map_replace_padDigits (w n : Nat) :
    (padDigits w n).map replaceColonDot = padDigits w n := by
  unfold padDigits
  rw [List.map_map]
  apply List.map_congr_left
  intro i _
  exact replace_digitChar _ (Nat.mod_lt _ (by norm_num))

theorem timestampName_eq (t : PyDateTime) :
    timestampName t = String.mk
      (padDigits 4 t.year ++ ['-'] ++ padDigits 2 t.month ++ ['-'] ++
       padDigits 2 t.day ++ ['T'] ++ padDigits 2 t.hour ++ ['-'] ++
       padDigits 2 t.minute ++ ['-'] ++ padDigits 2 t.second) := by
  unfold timestampName isoformatChars
  congr 1
  by_cases hm : t.microsecond = 0
  · simp only [hm, if_true, List.append_nil, List.map_append,
      map_replace_padDigits]
    rw [show ['-'].map replaceColonDot = ['-'] from rfl,
      show ['T'].map replaceColonDot = ['T'] from rfl,
      show [':'].map replaceColonDot = ['-'] from rfl]
    rw [List.take_of_length_le]
    simp [padDigits_length]
  · simp only [hm, if_false, List.map_append, map_replace_padDigits]
    rw [show ['-'].map replaceColonDot = ['-'] from rfl,
      show ['T'].map replaceColonDot = ['T'] from rfl,
      show [':'].map replaceColonDot = ['-'] from rfl,
      show ['.'].map replaceColonDot = ['-'] from rfl]
    rw [show ∀ (a b c d e f g h i j k l : List Char),
      a ++ b ++ c ++ d ++ e ++ f ++ g ++ h ++ i ++ j ++ k ++ l
        = (a ++ b ++ c ++ d ++ e ++ f ++ g ++ h ++ i ++ j ++ k) ++ l
      from fun _ _ _ _ _ _ _ _ _ _ _ _ => rfl]
    rw [List.take_left']
    simp [padDigits_length]



theorem timestampName_inj (t1 t2 : PyDateTime) (h1 : t1.Valid)
    (h2 : t2.Valid) (h : timestampName t1 = timestampName t2) :
    t1.year = t2.year ∧ t1.month = t2.month ∧ t1.day = t2.day ∧
    t1.hour = t2.hour ∧ t1.minute = t2.minute ∧ t1.second = t2.second := by
  obtain ⟨hy1, hy1', hmo1, hmo1', hd1, hd1', hh1, hmi1, hs1, hus1⟩ := h1
  obtain ⟨hy2, hy2', hmo2, hmo2', hd2, hd2', hh2, hmi2, hs2, hus2⟩ := h2
  rw [timestampName_eq, timestampName_eq] at h
  injection h with h
  simp only [padDigits_four, padDigits_two, List.cons_append,
    List.nil_append, List.cons.injEq, and_true, true_and] at h
  obtain ⟨e1, e2, e3, e4, e5, e6, e7, e8, e9, e10, e11, e12, e13, e14⟩ := h
  have d10 : ∀ m : Nat, m % 10 < 10 := fun m => Nat.mod_lt _ (by norm_num)
  refine ⟨?_, ?_, ?_, ?_, ?_, ?_⟩
  · have a1 := digitChar_inj _ _ (d10 _) (d10 _) e1
    have a2 := digitChar_inj _ _ (d10 _) (d10 _) e2
    have a3 := digitChar_inj _ _ (d10 _) (d10 _) e3
    have a4 := digitChar_inj _ _ (d10 _) (d10 _) e4
    omega
  · have a1 := digitChar_inj _ _ (d10 _) (d10 _) e5
    have a2 := digitChar_inj _ _ (d10 _) (d10 _) e6
    omega
  · have a1 := digitChar_inj _ _ (d10 _) (d10 _) e7
    have a2 := digitChar_inj _ _ (d10 _) (d10 _) e8
    omega
  · have a1 := digitChar_inj _ _ (d10 _) (d10 _) e9
    have a2 := digitChar_inj _ _ (d10 _) (d10 _) e10
    omega
  · have a1 := digitChar_inj _ _ (d10 _) (d10 _) e11
    have a2 := digitChar_inj _ _ (d10 _) (d10 _) e12
    omega
  · have a1 := digitChar_inj _ _ (d10 _) (d10 _) e13
    have a2 := digitChar_inj _ _ (d10 _) (d10 _) e14
    omega

/-- **C7.**  The session directory name is the wall-clock reading
formatted to second precision with `:` and `.` replaced by `-`, so
two runs started more than one second apart (their clock readings
differ by more than 1 000 000 microseconds) get distinct directory
names; and `ensure_output_directory` is idempotent — on an existing
base directory it raises nothing, changes nothing and prints
nothing. -/
theorem spec_C7_session_dirs :
    (∀ t1 t2 : PyDateTime, t1.Valid → t2.Valid →
      t1.toMicros + 1000000 < t2.toMicros →
      timestampName t1 ≠ timestampName t2) ∧
    (∀ (outputDir : String) (fs : List String), outputDir ∈ fs →
      ensure_output_directory outputDir fs = (fs, none)) ∧
    (∀ (outputDir : String) (fs : List String),
      ensure_output_directory outputDir
          (ensure_output_directory outputDir fs).1
        = ((ensure_output_directory outputDir fs).1, none)) := by
  refine ⟨?_, ?_, ?_⟩
  · intro t1 t2 h1 h2 hlt heq
    obtain ⟨ey, emo, ed, eh, emi, es⟩ := timestampName_inj t1 t2 h1 h2 heq
    have hb1 : t1.microsecond < 1000000 := h1.2.2.2.2.2.2.2.2.2
    have hb2 : t2.microsecond < 1000000 := h2.2.2.2.2.2.2.2.2.2
    unfold PyDateTime.toMicros at hlt
    rw [ey, emo, ed, eh, emi, es] at hlt
    omega
  · intro dir fs h
    unfold ensure_output_directory
    rw [if_pos h]
  · intro dir fs
    unfold ensure_output_directory
    by_cases h : dir ∈ fs
    · rw [if_pos h]
      rw [if_pos h]
    · rw [if_neg h]
      rw [if_pos (List.mem_cons_self dir fs)]

/-- Witness for C7: two readings two seconds apart, and a base
directory that already exists. -/
theorem spec_C7_witness :
    timestampName ⟨2026, 10, 12, 8, 30, 5, 0⟩
      ≠ timestampName ⟨2026, 10, 12, 8, 30, 7, 0⟩ ∧
    ensure_output_directory "/out" ["/out"] = (["/out"], none) :=
  ⟨spec_C7_session_dirs.1 ⟨2026, 10, 12, 8, 30, 5, 0⟩
      ⟨2026, 10, 12, 8, 30, 7, 0⟩ (by decide) (by decide) (by decide),
   spec_C7_session_dirs.2.1 "/out" ["/out"] (by simp)⟩


end NanoBanana
